import Mathlib

/-!
Shallow embedding of the RISC-V RV32I cycle-stepped simulator
(crates `riscv32i-sim` and `alu` of the repository).

Machine words (`Word`, `Addr` in the Rust source, both `u32`) are modelled
as `Nat`; every operation that can overflow in `u32` arithmetic reduces
modulo `2^32` exactly where the Rust code uses `wrapping_add`/`wrapping_sub`
or relies on the width of the type.  Fixed-size arrays (`[Word; 32]`,
`[Word; 1024]`) are modelled as functions out of `Fin 32` / `Fin 1024`.
-/

/-- The `u32` modulus. -/
def U32_MOD : Nat := 4294967296

/-- Two's-complement reading of a `u32` bit pattern as an `i32`
(the Rust cast `a as i32`). -/
def toSigned (a : Nat) : Int :=
  if a < 2 ^ 31 then (a : Int) else (a : Int) - 2 ^ 32

/-- Two's-complement `u32` bit pattern of a signed value
(the Rust cast `x as u32` on an `i32`). -/
def toUnsigned (x : Int) : Nat := (x % (2 ^ 32 : Int)).toNat

/-- ALU operation tags (`AluOp` of the missing `types.rs`).
Modelled from the spec: operations Add/Sub/And/Or/Xor/Sll/Srl/Sra/Slt/Sltu
plus the PassA/PassB identity passthroughs (spec section 4.1). -/
inductive AluOp : Type
  | Add | Sub | And | Or | Xor
  | Sll | Srl | Sra | Slt | Sltu
  | PassA | PassB
deriving DecidableEq, Repr

/-- ALU state (`Alu` of `alu.rs`): the latched result and zero flag. -/
structure Alu where
  result : Nat
  zero : Bool
deriving DecidableEq, Repr

/-- The `Alu::new()` constructor. -/
def Alu.new : Alu := { result := 0, zero := false }

/-- The `match op` expression inside `Alu::execute` of `alu.rs`.
`wrapping_add`/`wrapping_sub` are `mod 2^32`; shifts mask the amount to
its low 5 bits; `Sra` is the Rust `(a as i32) >> sh) as u32`, i.e.
floor division of the signed reading by `2^sh`, re-encoded as `u32`. -/
def Alu.compute (op : AluOp) (a b : Nat) : Nat :=
  match op with
  | .Add => (a + b) % U32_MOD
  | .Sub => (a + (U32_MOD - b % U32_MOD)) % U32_MOD
  | .And => a &&& b
  | .Or => a ||| b
  | .Xor => a ^^^ b
  | .Sll => (a <<< (b &&& 0x1F)) % U32_MOD
  | .Srl => a >>> (b &&& 0x1F)
  | .Sra => toUnsigned ((toSigned a).fdiv (2 ^ (b &&& 0x1F)))
  | .Slt => if toSigned a < toSigned b then 1 else 0
  | .Sltu => if a < b then 1 else 0
  | .PassA => a
  | .PassB => b

/-- `Alu::execute` of `alu.rs`: computes the result, latches it together
with the zero flag, and returns it. -/
def Alu.execute (alu : Alu) (op : AluOp) (a b : Nat) : Alu × Nat :=
  let result := Alu.compute op a b
  ({ alu with result := result, zero := result == 0 }, result)

/-- Register file state (`RegisterFile` of `register_file.rs`):
32 registers plus the latched port signals. -/
structure RegisterFile where
  registers : Fin 32 → Nat
  addr_a : Nat
  write_data_a : Nat
  read_data_a : Nat
  write_enable_a : Bool
  addr_b : Nat
  read_data_b : Nat

/-- The `RegisterFile::new()` constructor. -/
def RegisterFile.new : RegisterFile :=
  { registers := fun _ => 0
    addr_a := 0, write_data_a := 0, read_data_a := 0
    write_enable_a := false, addr_b := 0, read_data_b := 0 }

/-- `RegisterFile::combinational_read`: port reads with the x0-reads-zero
rule; an out-of-range address leaves the latched read data unchanged. -/
def RegisterFile.combinational_read (rf : RegisterFile) : RegisterFile :=
  let rda :=
    if rf.addr_a = 0 then 0
    else if h : rf.addr_a < 32 then rf.registers ⟨rf.addr_a, h⟩
    else rf.read_data_a
  let rdb :=
    if rf.addr_b = 0 then 0
    else if h : rf.addr_b < 32 then rf.registers ⟨rf.addr_b, h⟩
    else rf.read_data_b
  { rf with read_data_a := rda, read_data_b := rdb }

/-- `RegisterFile::clock`: latch the inputs, commit the write unless the
target is x0 or the enable is off, then update the read ports. -/
def RegisterFile.clock (rf : RegisterFile)
    (addr_a write_data_a : Nat) (write_enable_a : Bool) (addr_b : Nat) :
    RegisterFile :=
  let rf := { rf with
    addr_a := addr_a, write_data_a := write_data_a
    write_enable_a := write_enable_a, addr_b := addr_b }
  let rf :=
    if write_enable_a ∧ addr_a ≠ 0 ∧ addr_a < 32 then
      { rf with registers := fun i => if i.val = addr_a then write_data_a else rf.registers i }
    else rf
  rf.combinational_read

/-- `RegisterFile::reset`: zero the register array. -/
def RegisterFile.reset (rf : RegisterFile) : RegisterFile :=
  { rf with registers := fun _ => 0 }

/-- One input record of a `RegisterFile::clock` call:
(addr_a, write_data_a, write_enable_a, addr_b). -/
def RegisterFile.runSeq (rf : RegisterFile)
    (inputs : List (Nat × Nat × Bool × Nat)) : RegisterFile :=
  inputs.foldl (fun rf i => rf.clock i.1 i.2.1 i.2.2.1 i.2.2.2) rf

/-- Memory state (`Memory` of `memory.rs`): 1024 words plus the latched
control, address/data and write-mask signals. -/
structure Memory where
  data : Fin 1024 → Nat
  read_enable : Bool
  write_enable : Bool
  address : Nat
  write_data : Nat
  read_data : Nat
  write_mask : Nat

/-- The `Memory::new()` constructor (write mask defaults to word, 0b1111). -/
def Memory.new : Memory :=
  { data := fun _ => 0
    read_enable := false, write_enable := false
    address := 0, write_data := 0, read_data := 0
    write_mask := 0b1111 }

/-- Byte address to word index: `(addr >> 2) as usize % 1024`. -/
def Memory.wordIndex (addr : Nat) : Fin 1024 :=
  ⟨(addr >>> 2) % 1024, Nat.mod_lt _ (by norm_num)⟩

/-- `Memory::combinational_read`: latch the word at the wrapped index. -/
def Memory.combinational_read (m : Memory) (addr : Nat) : Memory :=
  { m with read_data := m.data (Memory.wordIndex addr) }

/-- `Memory::sequential_write`: masked byte/halfword/word write with the
alignment checks of `memory.rs`; a misaligned halfword/word write stores
the unmodified word back.  `!mask` on `u32` is `mask ^^^ 0xFFFFFFFF`. -/
def Memory.sequential_write (m : Memory) (addr data mask : Nat) : Memory :=
  let word_addr := Memory.wordIndex addr
  let byte_offset := addr &&& 0x3
  let current := m.data word_addr
  let current :=
    if mask = 0b0001 then
      let shift := byte_offset * 8
      let byte_mask := 0xFF <<< shift
      (current &&& (byte_mask ^^^ 0xFFFFFFFF)) ||| ((data &&& 0xFF) <<< shift)
    else if mask = 0b0011 then
      if addr &&& 0x1 = 0 then
        let shift := byte_offset * 8
        let half_mask := 0xFFFF <<< shift
        (current &&& (half_mask ^^^ 0xFFFFFFFF)) ||| ((data &&& 0xFFFF) <<< shift)
      else current
    else if mask = 0b1111 then
      if addr &&& 0x3 = 0 then data else current
    else current
  { m with data := fun i => if i = word_addr then current else m.data i }

/-- `Memory::clock`: latch the inputs, write on the clock edge when
enabled, then read when enabled. -/
def Memory.clock (m : Memory) (read_en write_en : Bool) (addr data : Nat) :
    Memory :=
  let m := { m with
    read_enable := read_en, write_enable := write_en
    address := addr, write_data := data }
  let m := if m.write_enable then m.sequential_write m.address m.write_data m.write_mask else m
  if m.read_enable then m.combinational_read m.address else m

/-- `Memory::get_read_data`. -/
def Memory.get_read_data (m : Memory) : Nat := m.read_data

/-- `Memory::set_write_mask`. -/
def Memory.set_write_mask (m : Memory) (mask : Nat) : Memory :=
  { m with write_mask := mask }

/-- `Memory::load_program`: write each 4-byte-aligned entry whose word
index is in range; skip everything else. -/
def Memory.load_program (m : Memory) (program : List (Nat × Nat)) : Memory :=
  program.foldl
    (fun m e =>
      if e.1 &&& 0x3 = 0 then
        if h : (e.1 >>> 2) < 1024 then
          { m with data := fun i => if i = ⟨e.1 >>> 2, h⟩ then e.2 else m.data i }
        else m
      else m)
    m

/-- `Memory::fetch`: word read at the wrapped index, ignoring the mask. -/
def Memory.fetch (m : Memory) (addr : Nat) : Nat :=
  m.data (Memory.wordIndex addr)

/-- `Memory::reset`: zero the data array and the read latch. -/
def Memory.reset (m : Memory) : Memory :=
  { m with data := fun _ => 0, read_data := 0 }

/-- Sign extension of a `bits`-wide field into a 32-bit two's-complement
pattern. -/
def signExtend (bits v : Nat) : Nat :=
  if v < 2 ^ (bits - 1) then v else v + (2 ^ 32 - 2 ^ bits)

/-- Modelled from the spec: the `Instruction` wrapper of the crate's
`types.rs`, which is declared in `lib.rs`/`main.rs` but absent from the
sources; it stores the raw 32-bit word (spec section 3). -/
structure Instruction where
  raw : Nat
deriving DecidableEq, Repr

/-- `Instruction::new`. -/
def Instruction.new (word : Nat) : Instruction := ⟨word⟩

/-- Modelled from the spec: `opcode` is bits 6:0 (spec section 3). -/
def Instruction.opcode (i : Instruction) : Nat := i.raw &&& 0x7F

/-- Modelled from the spec: `rd` is bits 11:7 (spec section 3). -/
def Instruction.rd (i : Instruction) : Nat := (i.raw >>> 7) &&& 0x1F

/-- Modelled from the spec: `rs1` is bits 19:15 (spec section 3). -/
def Instruction.rs1 (i : Instruction) : Nat := (i.raw >>> 15) &&& 0x1F

/-- Modelled from the spec: `rs2` is bits 24:20 (spec section 3). -/
def Instruction.rs2 (i : Instruction) : Nat := (i.raw >>> 20) &&& 0x1F

/-- Modelled from the spec: `funct3` is bits 14:12 (spec section 3). -/
def Instruction.funct3 (i : Instruction) : Nat := (i.raw >>> 12) &&& 0x7

/-- Modelled from the spec: `funct7` is bits 31:25 (spec section 3). -/
def Instruction.funct7 (i : Instruction) : Nat := (i.raw >>> 25) &&& 0x7F

/-- Modelled from the spec: `imm_i` is bits 31:20, sign-extended
(spec section 3); the value is kept as its `u32` two's-complement
pattern, matching the Rust `imm_i() as Word` uses in `cpu.rs`. -/
def Instruction.imm_i (i : Instruction) : Nat :=
  signExtend 12 ((i.raw >>> 20) &&& 0xFFF)

/-- Modelled from the spec: `imm_s` is {31:25, 11:7}, sign-extended
(spec section 3). -/
def Instruction.imm_s (i : Instruction) : Nat :=
  signExtend 12 ((((i.raw >>> 25) &&& 0x7F) <<< 5) ||| ((i.raw >>> 7) &&& 0x1F))

/-- Modelled from the spec: `imm_b` is {31,7,30:25,11:8,0}, sign-extended,
bit 0 always 0 (spec section 3). -/
def Instruction.imm_b (i : Instruction) : Nat :=
  signExtend 13 ((((i.raw >>> 31) &&& 0x1) <<< 12) |||
    (((i.raw >>> 7) &&& 0x1) <<< 11) |||
    (((i.raw >>> 25) &&& 0x3F) <<< 5) |||
    (((i.raw >>> 8) &&& 0xF) <<< 1))

/-- Modelled from the spec: `imm_u` is bits 31:12 shifted left 12
(spec section 3). -/
def Instruction.imm_u (i : Instruction) : Nat :=
  ((i.raw >>> 12) &&& 0xFFFFF) <<< 12

/-- Modelled from the spec: `imm_j` is {31,19:12,20,30:21,0},
sign-extended, bit 0 always 0 (spec section 3). -/
def Instruction.imm_j (i : Instruction) : Nat :=
  signExtend 21 ((((i.raw >>> 31) &&& 0x1) <<< 20) |||
    (((i.raw >>> 12) &&& 0xFF) <<< 12) |||
    (((i.raw >>> 20) &&& 0x1) <<< 11) |||
    (((i.raw >>> 21) &&& 0x3FF) <<< 1))

/-- Modelled from the spec: the I-format bit packer
`InstructionEncoder::i_type(opcode, rd, funct3, rs1, imm)` of the missing
`types.rs`, the mirror image of the immediate extraction (spec section 6;
argument order as used in `main.rs` and the disassembler tests). -/
def InstructionEncoder.i_type (opcode rd funct3 rs1 imm : Nat) : Nat :=
  ((imm &&& 0xFFF) <<< 20) ||| (rs1 <<< 15) ||| (funct3 <<< 12) |||
    (rd <<< 7) ||| opcode

/-- Modelled from the spec: the R-format bit packer
`InstructionEncoder::r_type(opcode, rd, funct3, rs1, rs2, funct7)` of the
missing `types.rs` (spec section 6). -/
def InstructionEncoder.r_type (opcode rd funct3 rs1 rs2 funct7 : Nat) : Nat :=
  (funct7 <<< 25) ||| (rs2 <<< 20) ||| (rs1 <<< 15) ||| (funct3 <<< 12) |||
    (rd <<< 7) ||| opcode

/-- Control signals decoded from one instruction (`ControlSignals` of the
missing `types.rs`; field list from spec section 3). -/
structure ControlSignals where
  alu_op : AluOp
  alu_src : Bool
  mem_read : Bool
  mem_write : Bool
  mem_to_reg : Bool
  reg_write : Bool
  branch : Bool
  jump : Bool
deriving DecidableEq, Repr

/-- Modelled from the spec: `ControlSignals::new()` is the inert default —
all boolean signals off (spec sections 3 and 7; `decode` overwrites
`alu_op` on every path, so its default is unobservable). -/
def ControlSignals.new : ControlSignals :=
  { alu_op := AluOp.Add
    alu_src := false, mem_read := false, mem_write := false
    mem_to_reg := false, reg_write := false, branch := false, jump := false }

/-- Control unit state (`ControlUnit` of `control_unit.rs`). -/
structure ControlUnit where
  current_instruction : Instruction
  control_signals : ControlSignals
  program_counter : Nat

/-- The `ControlUnit::new()` constructor. -/
def ControlUnit.new : ControlUnit :=
  { current_instruction := Instruction.new 0
    control_signals := ControlSignals.new
    program_counter := 0 }

/-- `ControlUnit::decode` of `control_unit.rs`: opcode dispatch (the Rust
`match` is an equality chain), refined by funct3/funct7 for the two
ALU-family opcodes. -/
def ControlUnit.decode (cu : ControlUnit) : ControlUnit :=
  let inst := cu.current_instruction
  let opcode := inst.opcode
  let funct3 := inst.funct3
  let funct7 := inst.funct7
  let signals :=
    if opcode = 0b0110111 then      -- LUI
      { ControlSignals.new with alu_op := AluOp.PassB, alu_src := true, reg_write := true }
    else if opcode = 0b0010111 then -- AUIPC
      { ControlSignals.new with alu_op := AluOp.Add, alu_src := true, reg_write := true }
    else if opcode = 0b1101111 then -- JAL
      { ControlSignals.new with alu_op := AluOp.Add, jump := true, reg_write := true }
    else if opcode = 0b1100111 then -- JALR
      { ControlSignals.new with alu_op := AluOp.Add, alu_src := true, jump := true, reg_write := true }
    else if opcode = 0b1100011 then -- Branch
      { ControlSignals.new with alu_op := AluOp.Sub, branch := true }
    else if opcode = 0b0000011 then -- Load
      { ControlSignals.new with alu_op := AluOp.Add, alu_src := true, mem_read := true, mem_to_reg := true, reg_write := true }
    else if opcode = 0b0100011 then -- Store
      { ControlSignals.new with alu_op := AluOp.Add, alu_src := true, mem_write := true }
    else if opcode = 0b0010011 then -- I-type ALU
      let alu_op :=
        if funct3 = 0b000 then AluOp.Add
        else if funct3 = 0b010 then AluOp.Slt
        else if funct3 = 0b011 then AluOp.Sltu
        else if funct3 = 0b100 then AluOp.Xor
        else if funct3 = 0b110 then AluOp.Or
        else if funct3 = 0b111 then AluOp.And
        else if funct3 = 0b001 then AluOp.Sll
        else if funct3 = 0b101 then
          (if funct7 &&& 0x20 ≠ 0 then AluOp.Sra else AluOp.Srl)
        else AluOp.Add
      { ControlSignals.new with alu_op := alu_op, alu_src := true, reg_write := true }
    else if opcode = 0b0110011 then -- R-type ALU
      let alu_op :=
        if funct3 = 0b000 ∧ funct7 = 0b0000000 then AluOp.Add
        else if funct3 = 0b000 ∧ funct7 = 0b0100000 then AluOp.Sub
        else if funct3 = 0b001 then AluOp.Sll
        else if funct3 = 0b010 then AluOp.Slt
        else if funct3 = 0b011 then AluOp.Sltu
        else if funct3 = 0b100 then AluOp.Xor
        else if funct3 = 0b101 ∧ funct7 = 0b0000000 then AluOp.Srl
        else if funct3 = 0b101 ∧ funct7 = 0b0100000 then AluOp.Sra
        else if funct3 = 0b110 then AluOp.Or
        else if funct3 = 0b111 then AluOp.And
        else AluOp.Add
      { ControlSignals.new with alu_op := alu_op, reg_write := true }
    else if opcode = 0b1110011 then -- SYSTEM: treated as NOP
      { ControlSignals.new with alu_op := AluOp.PassA }
    else                             -- unknown instruction: NOP
      { ControlSignals.new with alu_op := AluOp.PassA }
  { cu with control_signals := signals }

/-- `ControlUnit::clock`: latch the instruction and decode it. -/
def ControlUnit.clock (cu : ControlUnit) (instruction : Instruction) :
    ControlUnit :=
  ({ cu with current_instruction := instruction }).decode

/-- `ControlUnit::update_pc`: jump/taken-branch targets are masked to a
4-byte boundary (`jump_target & !0x3`, i.e. `&&& 0xFFFFFFFC` on `u32`);
otherwise the PC advances by 4 with `u32` wraparound. -/
def ControlUnit.update_pc (cu : ControlUnit)
    (branch_taken : Bool) (jump_target : Nat) : ControlUnit :=
  if cu.control_signals.jump ∨ (cu.control_signals.branch ∧ branch_taken) then
    { cu with program_counter := jump_target &&& 0xFFFFFFFC }
  else
    { cu with program_counter := (cu.program_counter + 4) % U32_MOD }

/-- `ControlUnit::get_pc`. -/
def ControlUnit.get_pc (cu : ControlUnit) : Nat := cu.program_counter

/-- `ControlUnit::set_pc`: enforce 4-byte alignment. -/
def ControlUnit.set_pc (cu : ControlUnit) (pc : Nat) : ControlUnit :=
  { cu with program_counter := pc &&& 0xFFFFFFFC }

/-- `ControlUnit::reset`: zero the PC and clear the signals. -/
def ControlUnit.reset (cu : ControlUnit) : ControlUnit :=
  { cu with program_counter := 0, control_signals := ControlSignals.new }

/-- CPU state (`Cpu` of `cpu.rs`). -/
structure Cpu where
  memory : Memory
  registers : RegisterFile
  control : ControlUnit
  alu : Alu
  cycle_count : Nat

/-- The `Cpu::new()` constructor. -/
def Cpu.new : Cpu :=
  { memory := Memory.new, registers := RegisterFile.new
    control := ControlUnit.new, alu := Alu.new, cycle_count := 0 }

/-- `Cpu::should_branch` of `cpu.rs`: RISC-V branch conditions, keyed on
the branch opcode and funct3. -/
def Cpu.should_branch (inst : Instruction) (rs1_data rs2_data : Nat) : Bool :=
  if inst.opcode ≠ 0b1100011 then false
  else if inst.funct3 = 0b000 then rs1_data == rs2_data
  else if inst.funct3 = 0b001 then rs1_data != rs2_data
  else if inst.funct3 = 0b100 then decide (toSigned rs1_data < toSigned rs2_data)
  else if inst.funct3 = 0b101 then decide (toSigned rs2_data ≤ toSigned rs1_data)
  else if inst.funct3 = 0b110 then decide (rs1_data < rs2_data)
  else if inst.funct3 = 0b111 then decide (rs2_data ≤ rs1_data)
  else false

/-- `Cpu::calculate_jump_target` of `cpu.rs`: JAL is `pc + imm_j`, JALR is
`(rs1 + imm_i) & !1`, a branch is `pc + imm_b`, anything else `pc + 4`
(all with `u32` wraparound). -/
def Cpu.calculate_jump_target (inst : Instruction) (pc rs1_data : Nat) : Nat :=
  if inst.opcode = 0b1101111 then (pc + inst.imm_j) % U32_MOD
  else if inst.opcode = 0b1100111 then
    ((rs1_data + inst.imm_i) % U32_MOD) &&& 0xFFFFFFFE
  else if inst.opcode = 0b1100011 then (pc + inst.imm_b) % U32_MOD
  else (pc + 4) % U32_MOD

/-- `Cpu::clock` of `cpu.rs`: one fetch-decode-execute step. -/
def Cpu.clock (c : Cpu) : Cpu :=
  let cycle_count := c.cycle_count + 1
  let pc := c.control.get_pc
  let instruction_word := c.memory.fetch pc
  let inst := Instruction.new instruction_word
  let control := c.control.clock inst
  let ctrl := control.control_signals
  let rs1 := inst.rs1
  let rs2 := inst.rs2
  let rd := inst.rd
  let registers := c.registers.clock rs1 0 false rs2
  let rs1_data := registers.read_data_a
  let rs2_data := registers.read_data_b
  let alu_operand_b := if ctrl.alu_src then inst.imm_i else rs2_data
  let alu_operand_a :=
    if inst.opcode = 0b0010111 then pc
    else if inst.opcode = 0b0110111 then 0
    else rs1_data
  let aluStep := c.alu.execute ctrl.alu_op alu_operand_a alu_operand_b
  let alu := aluStep.1
  let alu_result := aluStep.2
  let memStep :=
    if ctrl.mem_read || ctrl.mem_write then
      let memory := c.memory.clock ctrl.mem_read ctrl.mem_write alu_result rs2_data
      (memory, memory.get_read_data)
    else (c.memory, 0)
  let memory := memStep.1
  let mem_data := memStep.2
  let registers :=
    if ctrl.reg_write then
      let write_data :=
        if ctrl.mem_to_reg then mem_data
        else if ctrl.jump then (pc + 4) % U32_MOD
        else alu_result
      registers.clock rd write_data true 0
    else registers
  let branch_taken := Cpu.should_branch inst rs1_data rs2_data
  let jump_target := Cpu.calculate_jump_target inst pc rs1_data
  let control := control.update_pc branch_taken jump_target
  { memory := memory, registers := registers, control := control
    alu := alu, cycle_count := cycle_count }

/-- `Cpu::run_cycles`: call `clock` exactly `count` times. -/
def Cpu.run_cycles (c : Cpu) (count : Nat) : Cpu :=
  match count with
  | 0 => c
  | n + 1 => (c.clock).run_cycles n

/-- `Cpu::get_cycle_count`. -/
def Cpu.get_cycle_count (c : Cpu) : Nat := c.cycle_count

/-- `Cpu::reset`: reset the control unit, register file, memory and the
cycle counter. -/
def Cpu.reset (c : Cpu) : Cpu :=
  { c with
    control := c.control.reset
    registers := c.registers.reset
    memory := c.memory.reset
    cycle_count := 0 }

/-- `Cpu::load_program`: delegate to `Memory::load_program`. -/
def Cpu.load_program (c : Cpu) (program : List (Nat × Nat)) : Cpu :=
  { c with memory := c.memory.load_program program }

/-- The demo program of `main.rs` (`test_risc_v_instructions`): five RV32I
instructions at byte addresses 0, 4, 8, 12, 16. -/
def c3_program : List (Nat × Nat) :=
  [(0, InstructionEncoder.i_type 0b0010011 1 0b000 0 42),
   (4, InstructionEncoder.i_type 0b0010011 2 0b000 0 8),
   (8, InstructionEncoder.r_type 0b0110011 3 0b000 1 2 0b0000000),
   (12, InstructionEncoder.r_type 0b0110011 4 0b000 1 2 0b0100000),
   (16, InstructionEncoder.r_type 0b0110011 5 0b111 1 2 0b0000000)]

/-- The ten opcode families `ControlUnit::decode` recognizes. -/
def recognizedOpcodes : List Nat :=
  [0b0110111, 0b0010111, 0b1101111, 0b1100111, 0b1100011,
   0b0000011, 0b0100011, 0b0010011, 0b0110011, 0b1110011]

/-! ## Helper lemmas -/

theorem and_31_eq_mod (x : Nat) : x &&& 31 = x % 32 := by
  simpa using Nat.and_pow_two_sub_one_eq_mod x 5

theorem and_3_eq_mod (x : Nat) : x &&& 3 = x % 4 := by
  simpa using Nat.and_pow_two_sub_one_eq_mod x 2

theorem and_1_eq_mod (x : Nat) : x &&& 1 = x % 2 := Nat.and_one_is_mod x

theorem and_fffffffc_mod_four (x : Nat) : (x &&& 0xFFFFFFFC) % 4 = 0 := by
  rw [← and_3_eq_mod, Nat.land_assoc]
  have h : (0xFFFFFFFC &&& 3 : Nat) = 0 := by decide
  rw [h]
  simp

theorem and_fffffffe_mod_two (x : Nat) : (x &&& 0xFFFFFFFE) % 2 = 0 := by
  rw [← and_1_eq_mod, Nat.land_assoc]
  have h : (0xFFFFFFFE &&& 1 : Nat) = 0 := by decide
  rw [h]
  simp

theorem Instruction.rd_lt_32 (i : Instruction) : i.rd < 32 :=
  Nat.lt_succ_of_le (Nat.and_le_right)

theorem Memory.wordIndex_add_4096 (addr : Nat) :
    Memory.wordIndex (addr + 4096) = Memory.wordIndex addr := by
  apply Fin.ext
  show ((addr + 4096) >>> 2) % 1024 = (addr >>> 2) % 1024
  have h : (addr + 4096) >>> 2 = addr >>> 2 + 1024 := by
    simp only [Nat.shiftRight_eq_div_pow]
    omega
  rw [h, Nat.add_mod_right]

/-! ## Claim theorems -/

/-- C1 (code bug): the claim says `Cpu::reset` zeroes PC, cycle counter
and all 32 registers while preserving the 1024-word memory array.  The
zeroing of PC/cycle/registers holds, but `Memory::reset` (called by
`Cpu::reset`) zeroes the memory array as well: after loading
`ADDI x1, x0, 42` (word 0x02A00093) at byte address 0, `reset` erases it
and `fetch 0` returns 0 instead of the still-loaded instruction, although
the repository's own demo (`main.rs`) and test (`lib.rs`) call
`load_program` *before* `reset` and expect the program to run. -/
theorem c1_reset_wipes_loaded_memory :
    (Cpu.new.load_program [(0, 0x02A00093)]).memory.fetch 0 = 0x02A00093 ∧
    ((Cpu.new.load_program [(0, 0x02A00093)]).reset).memory.fetch 0 = 0 ∧
    ((Cpu.new.load_program [(0, 0x02A00093)]).reset).control.program_counter = 0 ∧
    ((Cpu.new.load_program [(0, 0x02A00093)]).reset).cycle_count = 0 ∧
    (∀ i : Fin 32, ((Cpu.new.load_program [(0, 0x02A00093)]).reset).registers.registers i = 0) ∧
    (0 : Nat) ≠ 0x02A00093 := by
  refine ⟨by decide, by decide, by decide, by decide, ?_, by decide⟩
  intro i
  rfl

/-- C2 (confirmed): after any sequence of `RegisterFile::clock` calls from
any starting state — including calls that try to write register 0 — a
clock call reading index 0 on either port latches 0; and a clock call
whose write address is 0 or whose write enable is off leaves all 32
register slots unchanged. -/
theorem c2_x0_invariant :
    (∀ (rf : RegisterFile) (inputs : List (Nat × Nat × Bool × Nat))
        (d : Nat) (en : Bool) (b : Nat),
      ((rf.runSeq inputs).clock 0 d en b).read_data_a = 0) ∧
    (∀ (rf : RegisterFile) (inputs : List (Nat × Nat × Bool × Nat))
        (a d : Nat) (en : Bool),
      ((rf.runSeq inputs).clock a d en 0).read_data_b = 0) ∧
    (∀ (rf : RegisterFile) (a d : Nat) (en : Bool) (b : Nat),
      a = 0 ∨ en = false → (rf.clock a d en b).registers = rf.registers) := by
  refine ⟨?_, ?_, ?_⟩
  · intro rf inputs d en b
    simp [RegisterFile.clock, RegisterFile.combinational_read]
  · intro rf inputs a d en
    simp only [RegisterFile.clock]
    split <;> simp [RegisterFile.combinational_read]
  · intro rf a d en b h
    rcases h with h | h <;>
      simp [RegisterFile.clock, RegisterFile.combinational_read, h]

/-- Witness for C2: a concrete sequence that tries to write 999 into
register 0; the subsequent read of index 0 yields 0, and a clock call
with write address 0 leaves the register array unchanged. -/
theorem c2_x0_invariant_witness :
    ((RegisterFile.new.runSeq [(0, 999, true, 1)]).clock 0 5 true 2).read_data_a = 0 ∧
    (RegisterFile.new.clock 0 7 true 3).registers = RegisterFile.new.registers :=
  ⟨c2_x0_invariant.1 RegisterFile.new [(0, 999, true, 1)] 5 true 2,
   c2_x0_invariant.2.2 RegisterFile.new 0 7 true 3 (Or.inl rfl)⟩

/-- C3 (confirmed): from a freshly constructed CPU, loading the five
instruction words encoding ADDI x1,x0,42; ADDI x2,x0,8; ADD x3,x1,x2;
SUB x4,x1,x2; AND x5,x1,x2 at byte addresses 0, 4, 8, 12, 16 and clocking
five times leaves x1 = 42, x2 = 8, x3 = 50, x4 = 34, x5 = 8 and the cycle
counter at 5. -/
theorem c3_end_to_end_program :
    ((Cpu.new.load_program c3_program).run_cycles 5).registers.registers 1 = 42 ∧
    ((Cpu.new.load_program c3_program).run_cycles 5).registers.registers 2 = 8 ∧
    ((Cpu.new.load_program c3_program).run_cycles 5).registers.registers 3 = 50 ∧
    ((Cpu.new.load_program c3_program).run_cycles 5).registers.registers 4 = 34 ∧
    ((Cpu.new.load_program c3_program).run_cycles 5).registers.registers 5 = 8 ∧
    ((Cpu.new.load_program c3_program).run_cycles 5).cycle_count = 5 := by
  refine ⟨by decide, by decide, by decide, by decide, by decide, by decide⟩

theorem Memory.sequential_write_halfword_misaligned (m : Memory) (addr d : Nat)
    (h : addr % 2 = 1) : (m.sequential_write addr d 0b0011).data = m.data := by
  have h1 : ¬(addr &&& 0x1 = 0) := by rw [and_1_eq_mod]; omega
  simp only [Memory.sequential_write, h1]
  norm_num
  funext i
  by_cases hi : i = Memory.wordIndex addr <;> simp [hi]

theorem Memory.sequential_write_word_misaligned (m : Memory) (addr d : Nat)
    (h : addr % 4 ≠ 0) : (m.sequential_write addr d 0b1111).data = m.data := by
  have h1 : ¬(addr &&& 0x3 = 0) := by rw [and_3_eq_mod]; omega
  simp only [Memory.sequential_write, h1]
  norm_num
  funext i
  by_cases hi : i = Memory.wordIndex addr <;> simp [hi]

theorem Memory.clock_data (m : Memory) (re we : Bool) (addr d : Nat) :
    (m.clock re we addr d).data =
      if we then (m.sequential_write addr d m.write_mask).data else m.data := by
  cases we <;> cases re <;>
    simp [Memory.clock, Memory.combinational_read, Memory.sequential_write]

/-- C4 (confirmed): the ALU reference table — Add(10,20)=30, Sub(30,15)=15,
And(0xFF,0x0F)=0x0F, Or(0xF0,0x0F)=0xFF, Xor(0xFF,0xAA)=0x55, Sll(1,4)=16,
Srl(16,2)=4, Sra(0xFFFFFFF0,2)=0xFFFFFFFC, Slt(5,10)=1, Sltu(5,10)=1 —
and for all operands: the shift amount of Sll/Srl/Sra is taken mod 32,
Add returns the sum mod 2^32, Sub is the mod-2^32 inverse of addition,
Slt compares the operands as two's-complement signed values, and Sltu
compares them as unsigned values. -/
theorem c4_alu_table :
    ((Alu.new.execute .Add 10 20).2 = 30) ∧
    ((Alu.new.execute .Sub 30 15).2 = 15) ∧
    ((Alu.new.execute .And 0xFF 0x0F).2 = 0x0F) ∧
    ((Alu.new.execute .Or 0xF0 0x0F).2 = 0xFF) ∧
    ((Alu.new.execute .Xor 0xFF 0xAA).2 = 0x55) ∧
    ((Alu.new.execute .Sll 1 4).2 = 16) ∧
    ((Alu.new.execute .Srl 16 2).2 = 4) ∧
    ((Alu.new.execute .Sra 0xFFFFFFF0 2).2 = 0xFFFFFFFC) ∧
    ((Alu.new.execute .Slt 5 10).2 = 1) ∧
    ((Alu.new.execute .Sltu 5 10).2 = 1) ∧
    (∀ (alu : Alu) (op : AluOp) (a b : Nat),
      op = AluOp.Sll ∨ op = AluOp.Srl ∨ op = AluOp.Sra →
      (alu.execute op a b).2 = (alu.execute op a (b % 32)).2) ∧
    (∀ (alu : Alu) (a b : Nat), (alu.execute .Add a b).2 = (a + b) % U32_MOD) ∧
    (∀ (alu : Alu) (a b : Nat), a < U32_MOD → b < U32_MOD →
      ((alu.execute .Sub a b).2 + b) % U32_MOD = a) ∧
    (∀ (alu : Alu) (a b : Nat),
      ((alu.execute .Slt a b).2 = 1 ↔ toSigned a < toSigned b) ∧
      ((alu.execute .Sltu a b).2 = 1 ↔ a < b)) := by
  refine ⟨by decide, by decide, by decide, by decide, by decide, by decide,
    by decide, by decide, by decide, by decide, ?_, ?_, ?_, ?_⟩
  · intro alu op a b h
    have hmm : b % 32 % 32 = b % 32 := Nat.mod_mod_of_dvd b dvd_rfl
    rcases h with h | h | h <;> subst h <;>
      simp [Alu.execute, Alu.compute, and_31_eq_mod, hmm]
  · intro alu a b
    rfl
  · intro alu a b ha hb
    simp only [Alu.execute, Alu.compute, U32_MOD] at *
    omega
  · intro alu a b
    constructor
    · by_cases h : toSigned a < toSigned b <;>
        simp [Alu.execute, Alu.compute, h]
    · by_cases h : a < b <;> simp [Alu.execute, Alu.compute, h]

/-- Witness for C4: the shift-amount masking and the Sub inverse property
at concrete inputs. -/
theorem c4_alu_table_witness :
    (Alu.new.execute .Sll 7 37).2 = (Alu.new.execute .Sll 7 (37 % 32)).2 ∧
    ((Alu.new.execute .Sub 5 9).2 + 9) % U32_MOD = 5 := by
  have h := c4_alu_table
  exact ⟨h.2.2.2.2.2.2.2.2.2.2.1 Alu.new .Sll 7 37 (Or.inl rfl),
    h.2.2.2.2.2.2.2.2.2.2.2.2.1 Alu.new 5 9 (by norm_num [U32_MOD]) (by norm_num [U32_MOD])⟩

/-- C5 (confirmed): `ControlUnit::update_pc` sets the PC to
`jump_target & ~0b11` (producing a 4-byte-aligned value) whenever the
decoded jump signal is set or the decoded branch signal is set together
with `branch_taken`; in every other case it sets the PC to the old PC
plus 4 (mod 2^32). -/
theorem c5_update_pc :
    ∀ (cu : ControlUnit) (bt : Bool) (jt : Nat),
      ((cu.control_signals.jump = true ∨
          (cu.control_signals.branch = true ∧ bt = true)) →
        (cu.update_pc bt jt).program_counter = jt &&& 0xFFFFFFFC ∧
        (cu.update_pc bt jt).program_counter % 4 = 0) ∧
      ((cu.control_signals.jump = false ∧
          (cu.control_signals.branch = false ∨ bt = false)) →
        (cu.update_pc bt jt).program_counter =
          (cu.program_counter + 4) % U32_MOD) := by
  intro cu bt jt
  constructor
  · intro h
    have hc : (cu.control_signals.jump = true ∨
        (cu.control_signals.branch = true ∧ bt = true)) := h
    have : (cu.update_pc bt jt).program_counter = jt &&& 0xFFFFFFFC := by
      rcases hc with h1 | ⟨h1, h2⟩
      · simp [ControlUnit.update_pc, h1]
      · simp [ControlUnit.update_pc, h1, h2]
    exact ⟨this, by rw [this]; exact and_fffffffc_mod_four jt⟩
  · rintro ⟨h1, h2⟩
    rcases h2 with h2 | h2 <;> simp [ControlUnit.update_pc, h1, h2]

/-- Witness for C5: a decoded JAL makes `update_pc` mask the target 6
down to 4; with no jump/branch signal the PC advances from 0 to 4. -/
theorem c5_update_pc_witness :
    ((ControlUnit.new.clock (Instruction.new 0x0000006F)).update_pc false 6).program_counter = 4 ∧
    (ControlUnit.new.update_pc false 10).program_counter = 4 := by
  have h1 := (c5_update_pc (ControlUnit.new.clock (Instruction.new 0x0000006F)) false 6).1
    (Or.inl (by decide))
  have h2 := (c5_update_pc ControlUnit.new false 10).2 ⟨by decide, Or.inr rfl⟩
  exact ⟨by rw [h1.1]; decide, by rw [h2]; decide⟩

/-- C7 (confirmed): a `Memory::clock` call with write enabled drops a
halfword-masked (0b0011) write at an odd byte address and a word-masked
(0b1111) write at a byte address not divisible by 4: all 1024 memory
words are left unchanged and no fault is raised. -/
theorem c7_misaligned_write_dropped :
    ∀ (m : Memory) (re : Bool) (addr d : Nat),
      (m.write_mask = 0b0011 → addr % 2 = 1 →
        (m.clock re true addr d).data = m.data) ∧
      (m.write_mask = 0b1111 → addr % 4 ≠ 0 →
        (m.clock re true addr d).data = m.data) := by
  intro m re addr d
  constructor
  · intro hm ha
    rw [Memory.clock_data, if_pos rfl, hm]
    exact Memory.sequential_write_halfword_misaligned m addr d ha
  · intro hm ha
    rw [Memory.clock_data, if_pos rfl, hm]
    exact Memory.sequential_write_word_misaligned m addr d ha

/-- Witness for C7: a halfword write at odd address 1 (mask 0b0011) and a
word write at address 2 (mask 0b1111) both leave memory unchanged. -/
theorem c7_misaligned_write_dropped_witness :
    ((Memory.new.set_write_mask 0b0011).clock false true 1 0xABCD).data =
      (Memory.new.set_write_mask 0b0011).data ∧
    (Memory.new.clock false true 2 0xDEADBEEF).data = Memory.new.data :=
  ⟨(c7_misaligned_write_dropped (Memory.new.set_write_mask 0b0011) false 1 0xABCD).1
      rfl (by decide),
   (c7_misaligned_write_dropped Memory.new false 2 0xDEADBEEF).2 rfl (by decide)⟩

/-- C9 counterexample: the claim says the ALU records carry and overflow
flags for Add/Sub, readable by the caller afterward.  But the complete
post-states of `execute(Add, 2^31, 2^31)` (unsigned wraparound occurred
and both signed operands are negative with a non-negative result, so
carry and signed overflow both happened) and of `execute(Add, 0, 0)`
(no carry, no overflow) are identical, so no carry or overflow
information is recorded anywhere in the ALU state. -/
theorem c9_flags_counterexample :
    Alu.new.execute .Add (2 ^ 31) (2 ^ 31) = Alu.new.execute .Add 0 0 ∧
    U32_MOD ≤ 2 ^ 31 + 2 ^ 31 ∧ (0 + 0 : Nat) < U32_MOD := by
  refine ⟨by decide, by decide, by decide⟩

/-- C9 as amended: after every `Alu::execute(op, a, b)` call the ALU
records the result and a zero flag equal to `result == 0`, readable by
the caller afterward; it stores no separate negative, carry or overflow
flag (the state holds nothing besides the result and the zero flag). -/
theorem c9_flags_amended :
    ∀ (alu : Alu) (op : AluOp) (a b : Nat),
      ((alu.execute op a b).1).result = (alu.execute op a b).2 ∧
      (((alu.execute op a b).1).zero = true ↔ (alu.execute op a b).2 = 0) := by
  intro alu op a b
  simp [Alu.execute]

/-- C10 (confirmed): `Memory::load_program` writes an entry only when its
byte address is 4-byte aligned and its word index `addr >> 2` is below
1024; an aligned entry with an out-of-range index is silently skipped,
and a misaligned entry is skipped, leaving memory unchanged — whereas
`fetch` and the clock-driven read reduce the word index modulo 1024 and
therefore wrap with a period of 4096 bytes. -/
theorem c10_load_program_bounds :
    (∀ (m : Memory) (addr w : Nat) (_ha : addr &&& 0x3 = 0)
        (hr : addr >>> 2 < 1024),
      (m.load_program [(addr, w)]).data =
        fun i => if i = ⟨addr >>> 2, hr⟩ then w else m.data i) ∧
    (∀ (m : Memory) (addr w : Nat), addr &&& 0x3 = 0 → 1024 ≤ addr >>> 2 →
      (m.load_program [(addr, w)]).data = m.data) ∧
    (∀ (m : Memory) (addr w : Nat), addr &&& 0x3 ≠ 0 →
      (m.load_program [(addr, w)]).data = m.data) ∧
    (∀ (m : Memory) (addr : Nat), m.fetch (addr + 4096) = m.fetch addr) ∧
    (∀ (m : Memory) (re : Bool) (addr d : Nat),
      (m.clock re false (addr + 4096) d).read_data =
        (m.clock re false addr d).read_data) := by
  refine ⟨?_, ?_, ?_, ?_, ?_⟩
  · intro m addr w ha hr
    simp [Memory.load_program, ha, hr]
  · intro m addr w ha hr
    have h : ¬(addr >>> 2 < 1024) := by omega
    simp [Memory.load_program, ha, h]
  · intro m addr w ha
    simp [Memory.load_program, ha]
  · intro m addr
    simp [Memory.fetch, Memory.wordIndex_add_4096]
  · intro m re addr d
    cases re <;>
      simp [Memory.clock, Memory.combinational_read, Memory.wordIndex_add_4096]

/-- Witness for C10: loading at aligned in-range address 8 writes word
index 2; loading at aligned out-of-range address 4096 and at misaligned
address 6 leaves memory unchanged; fetch wraps with period 4096. -/
theorem c10_load_program_bounds_witness :
    (Memory.new.load_program [(8, 77)]).data =
      (fun i => if i = ⟨8 >>> 2, by decide⟩ then 77 else Memory.new.data i) ∧
    (Memory.new.load_program [(4096, 77)]).data = Memory.new.data ∧
    (Memory.new.load_program [(6, 77)]).data = Memory.new.data ∧
    Memory.new.fetch (8 + 4096) = Memory.new.fetch 8 :=
  ⟨c10_load_program_bounds.1 Memory.new 8 77 (by decide) (by decide),
   c10_load_program_bounds.2.1 Memory.new 4096 77 (by decide) (by decide),
   c10_load_program_bounds.2.2.1 Memory.new 6 77 (by decide),
   c10_load_program_bounds.2.2.2.1 Memory.new 8⟩

/-- C6 counterexample: a JAL at PC 0 with J-immediate 2 (word 0x2000EF,
rd = 1 ≠ 0) does not set the PC to p + i = 2 as claimed: `update_pc`
masks the jump target to a 4-byte boundary, so the PC becomes
2 & ~0b11 = 0. -/
theorem c6_jump_claim_counterexample :
    (Instruction.new 0x2000EF).opcode = 0b1101111 ∧
    (Instruction.new 0x2000EF).imm_j = 2 ∧
    (Instruction.new 0x2000EF).rd = 1 ∧
    (Cpu.new.load_program [(0, 0x2000EF)]).control.program_counter = 0 ∧
    (Cpu.new.load_program [(0, 0x2000EF)]).clock.control.program_counter = 0 ∧
    (0 : Nat) ≠ 0 + 2 := by
  refine ⟨by decide, by decide, by decide, by decide, by decide, by decide⟩

/-- C6 as amended: for every JAL fetched at PC p with J-immediate i and
rd ≠ 0, one `clock()` call sets the PC to `(p + i) mod 2^32 & ~0b11`
(the 4-byte-aligned jump target) and writes `(p + 4) mod 2^32` into
register rd; for every JALR instruction the computed jump target
`(rs1_data + I-immediate) mod 2^32` has bit 0 cleared (it is masked with
~1, so the target is even) before the PC update. -/
theorem c6_jump_semantics :
    (∀ (c : Cpu),
      (Instruction.new (c.memory.fetch c.control.program_counter)).opcode = 0b1101111 →
      (Instruction.new (c.memory.fetch c.control.program_counter)).rd ≠ 0 →
      c.clock.control.program_counter =
        ((c.control.program_counter +
          (Instruction.new (c.memory.fetch c.control.program_counter)).imm_j) % U32_MOD) &&&
          0xFFFFFFFC ∧
      (∀ i : Fin 32,
        i.val = (Instruction.new (c.memory.fetch c.control.program_counter)).rd →
        c.clock.registers.registers i = (c.control.program_counter + 4) % U32_MOD)) ∧
    (∀ (inst : Instruction) (pc r1 : Nat), inst.opcode = 0b1100111 →
      Cpu.calculate_jump_target inst pc r1 = ((r1 + inst.imm_i) % U32_MOD) &&& 0xFFFFFFFE ∧
      Cpu.calculate_jump_target inst pc r1 % 2 = 0) := by
  constructor
  · intro c hop hrd
    have hrd32 : (Instruction.new (c.memory.fetch c.control.program_counter)).rd < 32 :=
      Instruction.rd_lt_32 _
    constructor
    · simp [Cpu.clock, ControlUnit.clock, ControlUnit.decode, ControlUnit.get_pc,
        ControlUnit.update_pc, Cpu.calculate_jump_target, ControlSignals.new, hop]
    · intro i hi
      simp [Cpu.clock, ControlUnit.clock, ControlUnit.decode, ControlUnit.get_pc,
        RegisterFile.clock, RegisterFile.combinational_read, ControlSignals.new,
        hop, hrd, hrd32, hi]
  · intro inst pc r1 hop
    refine ⟨by simp [Cpu.calculate_jump_target, hop], ?_⟩
    simp [Cpu.calculate_jump_target, hop, and_fffffffe_mod_two]

/-- Witness for C6 (amended): a JAL at PC 0 with immediate 8 (word
0x8000EF, rd = 1) sets the PC to 8 and writes 4 into x1; the JALR word
0x80E7 with rs1 data 5 and immediate 0 yields the even target 4. -/
theorem c6_jump_semantics_witness :
    (Cpu.new.load_program [(0, 0x8000EF)]).clock.control.program_counter = 8 ∧
    (Cpu.new.load_program [(0, 0x8000EF)]).clock.registers.registers 1 = 4 ∧
    Cpu.calculate_jump_target (Instruction.new 0x80E7) 0 5 = 4 := by
  have hj := c6_jump_semantics.1 (Cpu.new.load_program [(0, 0x8000EF)])
    (by decide) (by decide)
  have hr := c6_jump_semantics.2 (Instruction.new 0x80E7) 0 5 (by decide)
  have hreg := hj.2 1 (by decide)
  exact ⟨by rw [hj.1]; decide, by rw [hreg]; decide, by rw [hr.1]; decide⟩

/-- C8 (confirmed): for every fetched instruction word whose low 7 opcode
bits are none of the ten recognized RV32I opcode families, decode yields
the inert default (`alu_op = PassA`, every other signal false, visible in
the full `ControlSignals` record), and executing the instruction changes
no register slot and no part of memory while the PC advances by 4 and
the cycle counter by 1 — an implicit NOP. -/
theorem c8_unrecognized_opcode_nop :
    ∀ (c : Cpu),
      (Instruction.new (c.memory.fetch c.control.program_counter)).opcode ∉ recognizedOpcodes →
      c.clock.control.control_signals = { ControlSignals.new with alu_op := AluOp.PassA } ∧
      c.clock.registers.registers = c.registers.registers ∧
      c.clock.memory = c.memory ∧
      c.clock.control.program_counter = (c.control.program_counter + 4) % U32_MOD ∧
      c.clock.cycle_count = c.cycle_count + 1 := by
  intro c h
  simp only [recognizedOpcodes, List.mem_cons, List.not_mem_nil, or_false, not_or] at h
  obtain ⟨h1, h2, h3, h4, h5, h6, h7, h8, h9, h10⟩ := h
  refine ⟨?_, ?_, ?_, ?_, ?_⟩ <;>
    simp [Cpu.clock, ControlUnit.clock, ControlUnit.decode, ControlUnit.get_pc,
      ControlUnit.update_pc, Cpu.should_branch, Cpu.calculate_jump_target,
      RegisterFile.clock, RegisterFile.combinational_read, ControlSignals.new,
      h1, h2, h3, h4, h5, h6, h7, h8, h9, h10]

/-- Witness for C8: the all-zero instruction word (opcode 0, fetched by a
fresh CPU) is unrecognized, and one clock leaves registers and memory
unchanged while the PC moves to 4 and the cycle counter to 1. -/
theorem c8_unrecognized_opcode_nop_witness :
    Cpu.new.clock.registers.registers = Cpu.new.registers.registers ∧
    Cpu.new.clock.memory = Cpu.new.memory ∧
    Cpu.new.clock.control.program_counter = (Cpu.new.control.program_counter + 4) % U32_MOD ∧
    Cpu.new.clock.cycle_count = Cpu.new.cycle_count + 1 := by
  have h := c8_unrecognized_opcode_nop Cpu.new (by decide)
  exact ⟨h.2.1, h.2.2.1, h.2.2.2.1, h.2.2.2.2⟩
